import Mathlib

set_option maxRecDepth 40000

/-!
# Verification of the home-services pricing engine (src/main.py)

Shallow embedding of the core pricing logic: the static rate tables, the
logistics-cost helper, the supplier-selection helper, and the
`calculate_pricing` pipeline.  Python `float` arithmetic is modelled by
exact rationals; Python's `round(x, n)` (round-half-to-even) is modelled
by `roundHalfEven` scaled to the requested number of decimals.
-/

namespace Pricing

/-- Python's `round` to an integer: round half to even (banker's rounding). -/
def roundHalfEven (q : ℚ) : ℤ :=
  if q - ⌊q⌋ < 1/2 then ⌊q⌋
  else if 1/2 < q - ⌊q⌋ then ⌊q⌋ + 1
  else if ⌊q⌋ % 2 = 0 then ⌊q⌋ else ⌊q⌋ + 1

/-- Python's `round(x, 2)`. -/
def round2 (q : ℚ) : ℚ := (roundHalfEven (q * 100) : ℚ) / 100

/-- Python's `round(x)` (to a whole currency unit, used in the response). -/
def round0 (q : ℚ) : ℤ := roundHalfEven q

/-- Python's `str.upper()` (the inputs involved are ASCII state codes). -/
def strUpper (s : String) : String := ⟨s.data.map Char.toUpper⟩

/-- Python's `str.lower()` (the inputs involved are ASCII keywords). -/
def strLower (s : String) : String := ⟨s.data.map Char.toLower⟩

/-- Table `STATE_LABOR_RATES` from src/main.py (USD/hour by U.S. state). -/
def STATE_LABOR_RATES : List (String × ℚ) :=
  [("AL", 28), ("AK", 35), ("AZ", 32), ("AR", 26), ("CA", 38), ("CO", 34),
   ("CT", 40), ("DE", 33),
   ("FL", 30), ("GA", 29), ("HI", 42), ("ID", 28), ("IL", 36), ("IN", 29),
   ("IA", 27), ("KS", 26),
   ("KY", 27), ("LA", 27), ("ME", 31), ("MD", 34), ("MA", 41), ("MI", 32),
   ("MN", 33), ("MS", 25),
   ("MO", 28), ("MT", 29), ("NE", 27), ("NV", 34), ("NH", 32), ("NJ", 38),
   ("NM", 27), ("NY", 39),
   ("NC", 28), ("ND", 26), ("OH", 30), ("OK", 26), ("OR", 33), ("PA", 35),
   ("RI", 36), ("SC", 27),
   ("SD", 25), ("TN", 28), ("TX", 29), ("UT", 30), ("VT", 32), ("VA", 31),
   ("WA", 36), ("WV", 27),
   ("WI", 31), ("WY", 27)]

/-- Table `JOB_TYPE_MULTIPLIERS` from src/main.py (labor complexity). -/
def JOB_TYPE_MULTIPLIERS : List (String × ℚ) :=
  [("plumbing", 1.2), ("electrical", 1.3), ("hvac", 1.25), ("roofing", 1.4),
   ("carpentry", 1.15), ("painting", 1.0), ("flooring", 1.1),
   ("drywall", 1.05), ("general_repair", 1.0), ("landscaping", 0.9),
   ("window_replacement", 1.15), ("insulation", 1.0), ("siding", 1.2),
   ("bathroom_remodel", 1.3), ("kitchen_remodel", 1.4)]

/-- Table `URGENCY_MULTIPLIERS` from src/main.py. -/
def URGENCY_MULTIPLIERS : List (String × ℚ) :=
  [("normal", 1.0), ("same_day", 1.25), ("emergency", 1.5)]

/-- Constant `LOGISTICS_RATE_PER_KM` from src/main.py. -/
def LOGISTICS_RATE_PER_KM : ℚ := 0.50

/-- Function `calculate_logistics_cost`: base service-call fee of 50 plus a per-km rate. -/
def calculate_logistics_cost (distance_km : ℚ) : ℚ :=
  round2 (50 + distance_km * LOGISTICS_RATE_PER_KM)

/-- The sort key used by `select_supplier`: compare quoted prices
(`key=lambda x: x[1]`). -/
def priceLE (a b : String × ℚ) : Bool := decide (a.2 ≤ b.2)

/-- Function `select_supplier`: stable-sort the quotes by price and take the first;
the empty mapping yields the sentinel `(none, 0)`. -/
def select_supplier (material_prices : List (String × ℚ)) : Option String × ℚ :=
  match material_prices.mergeSort priceLE with
  | [] => (none, 0)
  | q :: _ => (some q.1, q.2)

/-- The structured input record read by `calculate_pricing` (`job_data`).
Absent keys are `none`; the Python code supplies the defaults.  The claims
under study concern numeric `labor_hours`/`distance_km`, so those fields
are rationals. -/
structure JobData where
  job_type : Option String := none
  job_description : Option String := none
  urgency : Option String := none
  labor_hours : Option ℚ := none
  state : Option String := none
  distance_km : Option ℚ := none
  material_prices : List (String × ℚ) := []

/-- Line 73: `job_type = job_data.get('job_type', '').lower()` -/
def job_typeOf (j : JobData) : String := strLower (j.job_type.getD "")

/-- Line 75: `urgency = job_data.get('urgency', 'normal').lower()` (before coercion). -/
def urgencyRaw (j : JobData) : String := strLower (j.urgency.getD "normal")

/-- Lines 87-88: `if urgency not in URGENCY_MULTIPLIERS: urgency = 'normal'` -/
def urgencyOf (j : JobData) : String :=
  if (URGENCY_MULTIPLIERS.lookup (urgencyRaw j)).isNone then "normal"
  else urgencyRaw j

/-- Line 76: `labor_hours = float(job_data.get('labor_hours', 2))` -/
def labor_hoursOf (j : JobData) : ℚ := j.labor_hours.getD 2

/-- Line 78: `state = job_data.get('state', 'CA').upper()` -/
def stateOf (j : JobData) : String := strUpper (j.state.getD "CA")

/-- Line 79: `distance_km = float(job_data.get('distance_km', 10))` -/
def distance_kmOf (j : JobData) : ℚ := j.distance_km.getD 10

/-- Lines 94-105: `labor_cost = round(state_labor_rate * job_multiplier * labor_hours *
urgency_multiplier, 2)` (lines 94-105 of src/main.py). -/
def labor_costOf (j : JobData) : ℚ :=
  round2 ((STATE_LABOR_RATES.lookup (stateOf j)).getD 30
    * (JOB_TYPE_MULTIPLIERS.lookup (job_typeOf j)).getD 1.0
    * labor_hoursOf j
    * (URGENCY_MULTIPLIERS.lookup (urgencyOf j)).getD 1.0)

/-- Lines 108-111: the supplier name, with the sentinel replaced by
`"Standard Materials"`. -/
def material_sourceOf (j : JobData) : String :=
  match (select_supplier j.material_prices).1 with
  | none => "Standard Materials"
  | some n => n

/-- Lines 108-113: the material cost, `0` for the sentinel and
`round(material_cost, 2)` otherwise. -/
def material_costOf (j : JobData) : ℚ :=
  match select_supplier j.material_prices with
  | (none, _) => 0
  | (some _, c) => round2 c

/-- Line 116. -/
def logistics_costOf (j : JobData) : ℚ :=
  calculate_logistics_cost (distance_kmOf j)

/-- Line 119: `subtotal = labor_cost + material_cost + logistics_cost`. -/
def subtotalOf (j : JobData) : ℚ :=
  labor_costOf j + material_costOf j + logistics_costOf j

/-- Line 122: `technician_payout = round(labor_cost * 0.68, 2)`. -/
def technician_payoutOf (j : JobData) : ℚ :=
  round2 (labor_costOf j * 0.68)

/-- Line 133: `client_price = round(subtotal / (1 - target_margin_percent), 2)`
with `target_margin_percent = 0.27`. -/
def preClampPrice (subtotal : ℚ) : ℚ :=
  round2 (subtotal / (1 - 0.27))

/-- Line 136: `platform_margin = round(client_price - subtotal, 2)`. -/
def preClampMargin (subtotal : ℚ) : ℚ :=
  round2 (preClampPrice subtotal - subtotal)

/-- Line 139: `actual_margin_percent = platform_margin / client_price if
client_price > 0 else 0`. -/
def actual_margin_percent (subtotal : ℚ) : ℚ :=
  if preClampPrice subtotal > 0 then preClampMargin subtotal / preClampPrice subtotal
  else 0

/-- Lines 142-149: the margin clamp, returning the final
`(client_price, platform_margin)` pair. -/
def clampStep (subtotal : ℚ) : ℚ × ℚ :=
  if actual_margin_percent subtotal < 0.20 then
    (round2 (subtotal / 0.80), round2 (round2 (subtotal / 0.80) - subtotal))
  else if actual_margin_percent subtotal > 0.35 then
    (round2 (subtotal / 0.65), round2 (round2 (subtotal / 0.65) - subtotal))
  else (preClampPrice subtotal, preClampMargin subtotal)

/-- The final `client_price`. -/
def client_priceOf (j : JobData) : ℚ := (clampStep (subtotalOf j)).1

/-- The final `platform_margin`. -/
def platform_marginOf (j : JobData) : ℚ := (clampStep (subtotalOf j)).2

/-- Lines 152-156: pricing confidence. -/
def pricing_confidenceOf (j : JobData) : String :=
  let afterMaterials := if j.material_prices.isEmpty then "medium" else "high"
  if labor_hoursOf j > 50 ∨ client_priceOf j > 2000 then "medium"
  else afterMaterials

/-- Lines 159-165: approval flag (three sequential triggers). -/
def approval_requiredOf (j : JobData) : Bool :=
  if urgencyOf j = "emergency" then true
  else if client_priceOf j > 3000 then true
  else if pricing_confidenceOf j = "low" then true
  else false

/-- The response record built at lines 168-178, each money field rounded to a
whole currency unit. -/
structure Response where
  client_price : ℤ
  technician_payout : ℤ
  material_source : String
  material_cost : ℤ
  labor_cost : ℤ
  logistics_cost : ℤ
  platform_margin : ℤ
  pricing_confidence : String
  approval_required : Bool
deriving DecidableEq

/-- The success payload of `calculate_pricing`. -/
def responseOf (j : JobData) : Response :=
  { client_price := round0 (client_priceOf j)
    technician_payout := round0 (technician_payoutOf j)
    material_source := material_sourceOf j
    material_cost := round0 (material_costOf j)
    labor_cost := round0 (labor_costOf j)
    logistics_cost := round0 (logistics_costOf j)
    platform_margin := round0 (platform_marginOf j)
    pricing_confidence := pricing_confidenceOf j
    approval_required := approval_requiredOf j }

/-- Function `calculate_pricing` (lines 67-183): validation first — unknown state is
"Invalid state code", out-of-range labor hours is the labor-hours message —
then the arithmetic pipeline. -/
def calculate_pricing (j : JobData) : Except String Response :=
  if (STATE_LABOR_RATES.lookup (stateOf j)).isNone then
    Except.error "Invalid state code"
  else if labor_hoursOf j < 0.5 ∨ labor_hoursOf j > 100 then
    Except.error "Labor hours must be between 0.5 and 100"
  else
    Except.ok (responseOf j)

/-- The validation predicate: exactly the inputs on which `calculate_pricing`
does not return an error. -/
def passesValidation (j : JobData) : Prop :=
  (STATE_LABOR_RATES.lookup (stateOf j)).isSome
    ∧ 0.5 ≤ labor_hoursOf j ∧ labor_hoursOf j ≤ 100

instance (j : JobData) : Decidable (passesValidation j) := by
  unfold passesValidation; infer_instance

/-- The spec example input (§8 of spec.md): plumbing in CA, normal urgency,
2 labor hours, 10 km, no supplier quotes. -/
def exampleJob : JobData :=
  { job_type := some "plumbing"
    urgency := some "normal"
    labor_hours := some 2
    state := some "CA"
    distance_km := some 10
    material_prices := [] }

/-- A validated input engineered to make the subtotal exactly one cent:
labor 11.25, logistics round2(50 - 61.24) = -11.24. -/
def lowSubtotalJob : JobData :=
  { job_type := some "landscaping"
    urgency := some "normal"
    labor_hours := some (1/2)
    state := some "MS"
    distance_km := some (-12248/100)
    material_prices := [] }

/-- A validated input whose negative travel distance drives the subtotal
negative: labor 76, logistics round2(50 - 500) = -450. -/
def negativeDistanceJob : JobData :=
  { distance_km := some (-1000) }

/-- A validated input with three supplier quotes, two tied at the minimum. -/
def suppliersJob : JobData :=
  { job_type := some "plumbing"
    distance_km := some 10
    material_prices := [("SupplierB", 80), ("SupplierA", 80), ("SupplierC", 95)] }

/-- An input whose job type and urgency are both unrecognized. -/
def unknownTypeJob : JobData :=
  { job_type := some "exorcism"
    urgency := some "whenever" }

/-- The all-defaults input: every key absent. -/
def emptyJob : JobData := {}

/-- An input with an unknown region code. -/
def invalidStateJob : JobData := { state := some "ZZ" }

/-- The example job with a different distance, materials and description:
only fields irrelevant to the technician payout changed. -/
def variedJob : JobData :=
  { job_type := some "plumbing"
    job_description := some "fix the sink"
    urgency := some "normal"
    labor_hours := some 2
    state := some "CA"
    distance_km := some 500
    material_prices := [("Depot", 40)] }

/-! ## Basic properties of the rounding function -/

/-- If `q` lies in `[n, n + 1/2)` the banker's rounding is `n`. -/
theorem roundHalfEven_eq_of_lt (n : ℤ) (q : ℚ) (h1 : (n:ℚ) ≤ q) (h2 : q < n + 1/2) :
    roundHalfEven q = n := by
  have hf : ⌊q⌋ = n := by
    rw [Int.floor_eq_iff]
    exact ⟨h1, by push_cast; linarith⟩
  unfold roundHalfEven
  rw [hf, if_pos (by push_cast; linarith)]

/-- If `q` lies in `(n - 1/2, n]` the banker's rounding is `n`. -/
theorem roundHalfEven_eq_of_gt (n : ℤ) (q : ℚ) (h1 : (n:ℚ) - 1/2 < q) (h2 : q ≤ n) :
    roundHalfEven q = n := by
  by_cases hq : (n:ℚ) ≤ q
  · exact roundHalfEven_eq_of_lt n q hq (by linarith)
  · push_neg at hq
    have hf : ⌊q⌋ = n - 1 := by
      rw [Int.floor_eq_iff]
      constructor
      · push_cast; linarith
      · push_cast; linarith
    unfold roundHalfEven
    rw [hf, if_neg (by push_cast; linarith), if_pos (by push_cast; linarith)]
    omega

theorem roundHalfEven_ge (q : ℚ) : q - 1/2 ≤ (roundHalfEven q : ℚ) := by
  have h1 := Int.floor_le q
  have h2 := Int.lt_floor_add_one q
  unfold roundHalfEven
  split_ifs <;> push_cast <;> linarith

theorem roundHalfEven_le (q : ℚ) : (roundHalfEven q : ℚ) ≤ q + 1/2 := by
  have h1 := Int.floor_le q
  have h2 := Int.lt_floor_add_one q
  unfold roundHalfEven
  split_ifs with ha hb <;> push_cast <;> push_neg at * <;> linarith

theorem roundHalfEven_intCast (n : ℤ) : roundHalfEven (n : ℚ) = n := by
  unfold roundHalfEven
  rw [Int.floor_intCast, sub_self, if_pos (by norm_num)]

/-- Evaluation rule for `round2` when the scaled value rounds down. -/
theorem round2_eq_of_lt (n : ℤ) (q : ℚ) (h1 : (n:ℚ) ≤ q * 100) (h2 : q * 100 < n + 1/2) :
    round2 q = (n : ℚ) / 100 := by
  rw [round2, roundHalfEven_eq_of_lt n _ h1 h2]

/-- Evaluation rule for `round2` when the scaled value rounds up. -/
theorem round2_eq_of_gt (n : ℤ) (q : ℚ) (h1 : (n:ℚ) - 1/2 < q * 100) (h2 : q * 100 ≤ n) :
    round2 q = (n : ℚ) / 100 := by
  rw [round2, roundHalfEven_eq_of_gt n _ h1 h2]

/-- Evaluation rule for `round0` when the value rounds down. -/
theorem round0_eq_of_lt (n : ℤ) (q : ℚ) (h1 : (n:ℚ) ≤ q) (h2 : q < n + 1/2) :
    round0 q = n := roundHalfEven_eq_of_lt n q h1 h2

/-- Evaluation rule for `round0` when the value rounds up. -/
theorem round0_eq_of_gt (n : ℤ) (q : ℚ) (h1 : (n:ℚ) - 1/2 < q) (h2 : q ≤ n) :
    round0 q = n := roundHalfEven_eq_of_gt n q h1 h2

theorem round2_ge (q : ℚ) : q - 1/200 ≤ round2 q := by
  have h := roundHalfEven_ge (q * 100)
  rw [round2, le_div_iff₀ (by norm_num : (0:ℚ) < 100)]
  linarith

theorem round2_le (q : ℚ) : round2 q ≤ q + 1/200 := by
  have h := roundHalfEven_le (q * 100)
  rw [round2, div_le_iff₀ (by norm_num : (0:ℚ) < 100)]
  linarith

/-- Multiples of a cent: the value set of `round2` and of every money
intermediate in the pipeline. -/
def Grid (x : ℚ) : Prop := ∃ n : ℤ, x = (n : ℚ) / 100

theorem grid_round2 (q : ℚ) : Grid (round2 q) := ⟨roundHalfEven (q * 100), rfl⟩

theorem Grid.add {x y : ℚ} (hx : Grid x) (hy : Grid y) : Grid (x + y) := by
  obtain ⟨n, rfl⟩ := hx
  obtain ⟨m, rfl⟩ := hy
  exact ⟨n + m, by push_cast; ring⟩

theorem Grid.sub {x y : ℚ} (hx : Grid x) (hy : Grid y) : Grid (x - y) := by
  obtain ⟨n, rfl⟩ := hx
  obtain ⟨m, rfl⟩ := hy
  exact ⟨n - m, by push_cast; ring⟩

theorem grid_zero : Grid 0 := ⟨0, by norm_num⟩

/-- Rounding `round2` fixes every whole-cent value. -/
theorem Grid.round2_eq {x : ℚ} (hx : Grid x) : round2 x = x := by
  obtain ⟨n, rfl⟩ := hx
  rw [round2, show (n : ℚ) / 100 * 100 = (n : ℚ) by field_simp, roundHalfEven_intCast]

theorem round2_zero : round2 0 = 0 := by
  rw [round2_eq_of_lt 0 0 (by norm_num) (by norm_num)]
  norm_num

/-! ## The pipeline's money values are whole cents -/

theorem labor_cost_grid (j : JobData) : Grid (labor_costOf j) := grid_round2 _

theorem material_cost_grid (j : JobData) : Grid (material_costOf j) := by
  rw [material_costOf]
  rcases select_supplier j.material_prices with ⟨_ | n, c⟩
  · exact grid_zero
  · exact grid_round2 _

theorem logistics_cost_grid (j : JobData) : Grid (logistics_costOf j) := grid_round2 _

theorem subtotal_grid (j : JobData) : Grid (subtotalOf j) :=
  ((labor_cost_grid j).add (material_cost_grid j)).add (logistics_cost_grid j)

/-! ## Analysis of the margin clamp -/

/-- For any whole-cent subtotal of at least 2 cents, the 27%-derived client
price already lands between `subtotal / 0.8` and `subtotal / 0.65`. -/
theorem preClampPrice_bounds (k : ℤ) (hk : 2 ≤ k) :
    (k:ℚ)/100 / 0.8 ≤ preClampPrice ((k:ℚ)/100)
      ∧ preClampPrice ((k:ℚ)/100) ≤ (k:ℚ)/100 / 0.65 := by
  have hge := round2_ge ((k:ℚ)/100 / (1 - 0.27))
  have hle := round2_le ((k:ℚ)/100 / (1 - 0.27))
  rw [preClampPrice]
  have e1 : (k:ℚ)/100 / 0.8 = k * (1/80) := by norm_num; ring
  have e2 : (k:ℚ)/100 / (1 - 0.27) = k * (1/73) := by norm_num; ring
  have e3 : (k:ℚ)/100 / 0.65 = k * (20/1300) := by norm_num; ring
  rw [e1, e2, e3]
  rw [e2] at hge hle
  by_cases h5 : (5:ℤ) ≤ k
  · have h5q : (5:ℚ) ≤ (k:ℚ) := by exact_mod_cast h5
    constructor
    · nlinarith
    · nlinarith
  · push_neg at h5
    interval_cases k
    · rw [show ((2:ℤ):ℚ) * (1/73) = (2:ℚ)/73 by push_cast; ring,
        round2_eq_of_gt 3 _ (by norm_num) (by norm_num)]
      norm_num
    · rw [show ((3:ℤ):ℚ) * (1/73) = (3:ℚ)/73 by push_cast; ring,
        round2_eq_of_lt 4 _ (by norm_num) (by norm_num)]
      norm_num
    · rw [show ((4:ℤ):ℚ) * (1/73) = (4:ℚ)/73 by push_cast; ring,
        round2_eq_of_lt 5 _ (by norm_num) (by norm_num)]
      norm_num

/-- For any whole-cent subtotal of at least 2 cents: the pre-clamp price is
positive, the margin-percent guard lies inside `[0.20, 0.35]`, and neither
clamp branch fires. -/
theorem clampStep_of_two_le (k : ℤ) (hk : 2 ≤ k) :
    0 < preClampPrice ((k:ℚ)/100)
      ∧ preClampMargin ((k:ℚ)/100) = preClampPrice ((k:ℚ)/100) - (k:ℚ)/100
      ∧ 0.20 ≤ actual_margin_percent ((k:ℚ)/100)
      ∧ actual_margin_percent ((k:ℚ)/100) ≤ 0.35
      ∧ clampStep ((k:ℚ)/100)
          = (preClampPrice ((k:ℚ)/100), preClampMargin ((k:ℚ)/100)) := by
  obtain ⟨hlo, hhi⟩ := preClampPrice_bounds k hk
  have hk2 : (2:ℚ) ≤ (k:ℚ) := by exact_mod_cast hk
  have hcp : 0 < preClampPrice ((k:ℚ)/100) := by
    have h : (0:ℚ) < (k:ℚ)/100 / 0.8 :=
      div_pos (div_pos (by linarith) (by norm_num)) (by norm_num)
    linarith
  have hpm : preClampMargin ((k:ℚ)/100)
      = preClampPrice ((k:ℚ)/100) - (k:ℚ)/100 := by
    rw [preClampMargin]
    exact Grid.round2_eq ((grid_round2 _).sub ⟨k, rfl⟩)
  rw [div_le_iff₀ (by norm_num : (0:ℚ) < 0.8)] at hlo
  rw [le_div_iff₀ (by norm_num : (0:ℚ) < 0.65)] at hhi
  have hamp : actual_margin_percent ((k:ℚ)/100)
      = (preClampPrice ((k:ℚ)/100) - (k:ℚ)/100) / preClampPrice ((k:ℚ)/100) := by
    rw [actual_margin_percent,
      if_pos (show preClampPrice ((k:ℚ)/100) > 0 from hcp), hpm]
  have h20 : (0.20 : ℚ) ≤ actual_margin_percent ((k:ℚ)/100) := by
    rw [hamp, le_div_iff₀ hcp]
    linarith
  have h35 : actual_margin_percent ((k:ℚ)/100) ≤ (0.35 : ℚ) := by
    rw [hamp, div_le_iff₀ hcp]
    linarith
  refine ⟨hcp, hpm, h20, h35, ?_⟩
  rw [clampStep, if_neg (by linarith), if_neg (by linarith)]

/-- A zero subtotal takes the `client_price > 0` guard's `else 0` and then the
low-margin branch, landing on `(0, 0)`. -/
theorem clampStep_zero : clampStep 0 = (0, 0) := by
  have hcp : preClampPrice 0 = 0 := by
    rw [preClampPrice, show (0:ℚ) / (1 - 0.27) = 0 by norm_num, round2_zero]
  have hamp : actual_margin_percent 0 = 0 := by
    rw [actual_margin_percent, hcp, if_neg (by norm_num)]
  rw [clampStep, hamp, if_pos (by norm_num),
    show (0:ℚ) / 0.80 = 0 by norm_num, round2_zero]
  norm_num [round2_zero]

/-- A one-cent subtotal: the 27%-derived price is `0.01`, the margin rounds
to `0`, the guard ratio is `0`, and the low clamp recomputes the price back
to `0.01`. -/
theorem clampStep_one_cent : clampStep (1/100) = (1/100, 0) := by
  have hcp : preClampPrice (1/100) = 1/100 := by
    rw [preClampPrice, round2_eq_of_lt 1 _ (by norm_num) (by norm_num)]
    norm_num
  have hpm : preClampMargin (1/100) = 0 := by
    rw [preClampMargin, hcp, sub_self, round2_zero]
  have hamp : actual_margin_percent (1/100) = 0 := by
    rw [actual_margin_percent, hcp, hpm, if_pos (by norm_num : (1:ℚ)/100 > 0)]
    norm_num
  rw [clampStep, hamp, if_pos (by norm_num),
    round2_eq_of_lt 1 ((1:ℚ)/100/0.80) (by norm_num) (by norm_num),
    show ((1:ℤ):ℚ)/100 - 1/100 = 0 by norm_num, round2_zero]
  norm_num

/-! ## Evaluation of the spec example input -/

theorem exampleJob_valid : passesValidation exampleJob :=
  ⟨by decide, by norm_num [labor_hoursOf, exampleJob], by norm_num [labor_hoursOf, exampleJob]⟩

theorem exampleJob_labor_cost : labor_costOf exampleJob = 456/5 := by
  rw [labor_costOf,
    (by decide : stateOf exampleJob = "CA"),
    (by decide : job_typeOf exampleJob = "plumbing"),
    (by decide : urgencyOf exampleJob = "normal"),
    (by simp [labor_hoursOf, exampleJob] : labor_hoursOf exampleJob = 2),
    (by simp [STATE_LABOR_RATES, List.lookup] :
      (STATE_LABOR_RATES.lookup ("CA")).getD 30 = 38),
    (by simp [JOB_TYPE_MULTIPLIERS, List.lookup] :
      (JOB_TYPE_MULTIPLIERS.lookup ("plumbing")).getD 1.0 = 1.2),
    (by simp [URGENCY_MULTIPLIERS, List.lookup] :
      (URGENCY_MULTIPLIERS.lookup ("normal")).getD 1.0 = 1.0),
    (by norm_num : (38:ℚ) * 1.2 * 2 * 1.0 = 456/5),
    round2_eq_of_lt 9120 _ (by norm_num) (by norm_num)]
  norm_num

theorem exampleJob_material_cost : material_costOf exampleJob = 0 := by
  simp [material_costOf, select_supplier, exampleJob]

theorem exampleJob_material_source : material_sourceOf exampleJob = "Standard Materials" := by
  simp [material_sourceOf, select_supplier, exampleJob]

theorem exampleJob_logistics : logistics_costOf exampleJob = 55 := by
  rw [logistics_costOf, calculate_logistics_cost,
    (by simp [distance_kmOf, exampleJob] : distance_kmOf exampleJob = 10),
    (by norm_num [LOGISTICS_RATE_PER_KM] : (50:ℚ) + 10 * LOGISTICS_RATE_PER_KM = 55),
    round2_eq_of_lt 5500 _ (by norm_num) (by norm_num)]
  norm_num

theorem exampleJob_subtotal : subtotalOf exampleJob = 731/5 := by
  rw [subtotalOf, exampleJob_labor_cost, exampleJob_material_cost, exampleJob_logistics]
  norm_num

theorem exampleJob_clamp : clampStep (subtotalOf exampleJob) = (20027/100, 5407/100) := by
  obtain ⟨hcp, hpm, h20, h35, heq⟩ := clampStep_of_two_le 14620 (by norm_num)
  have hp : preClampPrice (((14620:ℤ):ℚ)/100) = 20027/100 := by
    rw [preClampPrice, round2_eq_of_lt 20027 _ (by norm_num) (by norm_num)]
    norm_num
  rw [exampleJob_subtotal,
    (by norm_num : (731:ℚ)/5 = ((14620:ℤ):ℚ)/100), heq, hpm, hp]
  norm_num [Prod.ext_iff]

theorem exampleJob_client_price : client_priceOf exampleJob = 20027/100 := by
  rw [client_priceOf, exampleJob_clamp]

theorem exampleJob_platform_margin : platform_marginOf exampleJob = 5407/100 := by
  rw [platform_marginOf, exampleJob_clamp]

theorem exampleJob_payout : technician_payoutOf exampleJob = 3101/50 := by
  rw [technician_payoutOf, exampleJob_labor_cost,
    (by norm_num : (456:ℚ)/5 * 0.68 = 7752/125),
    round2_eq_of_gt 6202 _ (by norm_num) (by norm_num)]
  norm_num

theorem exampleJob_confidence : pricing_confidenceOf exampleJob = "medium" := by
  simp only [pricing_confidenceOf]
  rw [(by simp [labor_hoursOf, exampleJob] : labor_hoursOf exampleJob = 2),
    exampleJob_client_price, if_neg (by norm_num)]
  simp [exampleJob]

theorem exampleJob_approval : approval_requiredOf exampleJob = false := by
  rw [approval_requiredOf, (by decide : urgencyOf exampleJob = "normal"),
    exampleJob_client_price, exampleJob_confidence,
    if_neg (by decide), if_neg (by norm_num), if_neg (by decide)]

theorem exampleJob_response :
    calculate_pricing exampleJob = Except.ok
      { client_price := 200
        technician_payout := 62
        material_source := "Standard Materials"
        material_cost := 0
        labor_cost := 91
        logistics_cost := 55
        platform_margin := 54
        pricing_confidence := "medium"
        approval_required := false } := by
  rw [calculate_pricing, if_neg (by decide),
    if_neg (by norm_num [labor_hoursOf, exampleJob]), responseOf,
    exampleJob_client_price, exampleJob_payout, exampleJob_material_source,
    exampleJob_material_cost, exampleJob_labor_cost, exampleJob_logistics,
    exampleJob_platform_margin, exampleJob_confidence, exampleJob_approval,
    round0_eq_of_lt 200 _ (by norm_num) (by norm_num),
    round0_eq_of_lt 62 _ (by norm_num) (by norm_num),
    round0_eq_of_lt 0 _ (by norm_num) (by norm_num),
    round0_eq_of_lt 91 _ (by norm_num) (by norm_num),
    round0_eq_of_lt 55 _ (by norm_num) (by norm_num),
    round0_eq_of_lt 54 _ (by norm_num) (by norm_num)]

/-! ## Evaluation of the one-cent-subtotal input -/

theorem lowJob_valid : passesValidation lowSubtotalJob :=
  ⟨by decide, by norm_num [labor_hoursOf, lowSubtotalJob],
    by norm_num [labor_hoursOf, lowSubtotalJob]⟩

theorem lowJob_labor_cost : labor_costOf lowSubtotalJob = 45/4 := by
  rw [labor_costOf,
    (by decide : stateOf lowSubtotalJob = "MS"),
    (by decide : job_typeOf lowSubtotalJob = "landscaping"),
    (by decide : urgencyOf lowSubtotalJob = "normal"),
    (by simp [labor_hoursOf, lowSubtotalJob] : labor_hoursOf lowSubtotalJob = 1/2),
    (by simp [STATE_LABOR_RATES, List.lookup] :
      (STATE_LABOR_RATES.lookup ("MS")).getD 30 = 25),
    (by simp [JOB_TYPE_MULTIPLIERS, List.lookup] :
      (JOB_TYPE_MULTIPLIERS.lookup ("landscaping")).getD 1.0 = 0.9),
    (by simp [URGENCY_MULTIPLIERS, List.lookup] :
      (URGENCY_MULTIPLIERS.lookup ("normal")).getD 1.0 = 1.0),
    (by norm_num : (25:ℚ) * 0.9 * (1/2) * 1.0 = 45/4),
    round2_eq_of_lt 1125 _ (by norm_num) (by norm_num)]
  norm_num

theorem lowJob_logistics : logistics_costOf lowSubtotalJob = -281/25 := by
  rw [logistics_costOf, calculate_logistics_cost,
    (by simp [distance_kmOf, lowSubtotalJob] : distance_kmOf lowSubtotalJob = -12248/100),
    (by norm_num [LOGISTICS_RATE_PER_KM] :
      (50:ℚ) + (-12248/100) * LOGISTICS_RATE_PER_KM = -281/25),
    round2_eq_of_lt (-1124) _ (by norm_num) (by norm_num)]
  norm_num

theorem lowJob_subtotal : subtotalOf lowSubtotalJob = 1/100 := by
  rw [subtotalOf, lowJob_labor_cost,
    (by simp [material_costOf, select_supplier, lowSubtotalJob] :
      material_costOf lowSubtotalJob = 0),
    lowJob_logistics]
  norm_num

/-! ## Evaluation of the negative-subtotal input -/

theorem negJob_valid : passesValidation negativeDistanceJob :=
  ⟨by decide, by norm_num [labor_hoursOf, negativeDistanceJob],
    by norm_num [labor_hoursOf, negativeDistanceJob]⟩

theorem negJob_labor_cost : labor_costOf negativeDistanceJob = 76 := by
  rw [labor_costOf,
    (by decide : stateOf negativeDistanceJob = "CA"),
    (by decide : job_typeOf negativeDistanceJob = ""),
    (by decide : urgencyOf negativeDistanceJob = "normal"),
    (by simp [labor_hoursOf, negativeDistanceJob] : labor_hoursOf negativeDistanceJob = 2),
    (by simp [STATE_LABOR_RATES, List.lookup] :
      (STATE_LABOR_RATES.lookup ("CA")).getD 30 = 38),
    (by simp [JOB_TYPE_MULTIPLIERS, List.lookup] :
      (JOB_TYPE_MULTIPLIERS.lookup ("")).getD 1.0 = 1.0),
    (by simp [URGENCY_MULTIPLIERS, List.lookup] :
      (URGENCY_MULTIPLIERS.lookup ("normal")).getD 1.0 = 1.0),
    (by norm_num : (38:ℚ) * 1.0 * 2 * 1.0 = 76),
    round2_eq_of_lt 7600 _ (by norm_num) (by norm_num)]
  norm_num

theorem negJob_logistics : logistics_costOf negativeDistanceJob = -450 := by
  rw [logistics_costOf, calculate_logistics_cost,
    (by simp [distance_kmOf, negativeDistanceJob] : distance_kmOf negativeDistanceJob = -1000),
    (by norm_num [LOGISTICS_RATE_PER_KM] :
      (50:ℚ) + (-1000) * LOGISTICS_RATE_PER_KM = -450),
    round2_eq_of_lt (-45000) _ (by norm_num) (by norm_num)]
  norm_num

theorem negJob_subtotal : subtotalOf negativeDistanceJob = -374 := by
  rw [subtotalOf, negJob_labor_cost,
    (by simp [material_costOf, select_supplier, negativeDistanceJob] :
      material_costOf negativeDistanceJob = 0),
    negJob_logistics]
  norm_num

theorem negJob_preclamp : preClampPrice (subtotalOf negativeDistanceJob) = -51233/100 := by
  rw [negJob_subtotal, preClampPrice,
    round2_eq_of_lt (-51233) _ (by norm_num) (by norm_num)]
  norm_num

theorem negJob_clamp : clampStep (subtotalOf negativeDistanceJob) = (-935/2, -187/2) := by
  have hamp : actual_margin_percent (subtotalOf negativeDistanceJob) = 0 := by
    rw [actual_margin_percent, if_neg]
    rw [negJob_preclamp]
    norm_num
  rw [clampStep, hamp, if_pos (by norm_num), negJob_subtotal,
    round2_eq_of_lt (-46750) ((-374:ℚ)/0.80) (by norm_num) (by norm_num),
    (by norm_num : ((-46750:ℤ):ℚ)/100 - (-374:ℚ) = -187/2),
    round2_eq_of_lt (-9350) (-187/2 : ℚ) (by norm_num) (by norm_num)]
  norm_num [Prod.ext_iff]

/-! ## Inversion and congruence facts about the pipeline -/

/-- Inversion: `calculate_pricing` errors exactly on an unknown region or out-of-range
labor hours. -/
theorem pricing_error_iff (j : JobData) :
    (∃ e, calculate_pricing j = Except.error e)
      ↔ (STATE_LABOR_RATES.lookup (stateOf j) = none
          ∨ labor_hoursOf j < 0.5 ∨ labor_hoursOf j > 100) := by
  constructor
  · rintro ⟨e, he⟩
    by_contra hc
    push_neg at hc
    obtain ⟨h1, h2, h3⟩ := hc
    rw [calculate_pricing,
      if_neg (by simp [Option.isNone_iff_eq_none, h1]),
      if_neg (by push_neg; exact ⟨h2, h3⟩)] at he
    exact Except.noConfusion he
  · intro h
    by_cases h1 : STATE_LABOR_RATES.lookup (stateOf j) = none
    · exact ⟨_, by rw [calculate_pricing, if_pos (by simp [Option.isNone_iff_eq_none, h1])]⟩
    · have h23 : labor_hoursOf j < 0.5 ∨ labor_hoursOf j > 100 := by tauto
      exact ⟨_, by rw [calculate_pricing,
        if_neg (by simp [Option.isNone_iff_eq_none, h1]), if_pos h23]⟩

/-- A validated input always yields the success payload `responseOf`. -/
theorem pricing_ok_of_valid (j : JobData) (h : passesValidation j) :
    calculate_pricing j = Except.ok (responseOf j) := by
  obtain ⟨h1, h2, h3⟩ := h
  rw [Option.isSome_iff_ne_none] at h1
  rw [calculate_pricing, if_neg (by simp [Option.isNone_iff_eq_none, h1]),
    if_neg (by push_neg; exact ⟨h2, h3⟩)]

/-- Any success payload of `calculate_pricing` is `responseOf`. -/
theorem pricing_ok_inv (j : JobData) (r : Response)
    (h : calculate_pricing j = Except.ok r) : r = responseOf j := by
  rw [calculate_pricing] at h
  split_ifs at h <;>
    first
      | exact Except.noConfusion h
      | exact (Except.ok.inj h).symm

/-- Congruence: `calculate_pricing` depends on the state field only through `stateOf`,
and not at all on the free-text description. -/
theorem calculate_pricing_congr (j₁ j₂ : JobData)
    (h1 : j₁.job_type = j₂.job_type) (h2 : j₁.urgency = j₂.urgency)
    (h3 : j₁.labor_hours = j₂.labor_hours) (h4 : stateOf j₁ = stateOf j₂)
    (h5 : j₁.distance_km = j₂.distance_km)
    (h6 : j₁.material_prices = j₂.material_prices) :
    calculate_pricing j₁ = calculate_pricing j₂ := by
  cases j₁
  cases j₂
  simp only at h1 h2 h3 h5 h6
  subst h1 h2 h3 h5 h6
  simp only [calculate_pricing, responseOf, client_priceOf, platform_marginOf,
    subtotalOf, technician_payoutOf, labor_costOf, material_costOf,
    material_sourceOf, logistics_costOf, distance_kmOf, labor_hoursOf,
    pricing_confidenceOf, approval_requiredOf, urgencyOf, urgencyRaw,
    job_typeOf, h4]

/-! ## Positivity facts for the rate tables -/

theorem lookup_pos {l : List (String × ℚ)} (hl : ∀ p ∈ l, 0 < p.2)
    {s : String} {v : ℚ} (h : l.lookup s = some v) : 0 < v := by
  induction l with
  | nil => simp [List.lookup] at h
  | cons a t ih =>
    rcases a with ⟨k, w⟩
    rw [List.lookup] at h
    cases hk : s == k with
    | true =>
        simp only [hk] at h
        exact Option.some.inj h ▸ hl (k, w) (List.mem_cons_self _ _)
    | false =>
        simp only [hk] at h
        exact ih (fun p hp => hl p (List.mem_cons_of_mem _ hp)) h

theorem pos_getD {l : List (String × ℚ)} (hl : ∀ p ∈ l, 0 < p.2)
    (s : String) {d : ℚ} (hd : 0 < d) : 0 < (l.lookup s).getD d := by
  cases h : l.lookup s with
  | none => simpa using hd
  | some v => simpa using lookup_pos hl h

theorem STATE_LABOR_RATES_pos : ∀ p ∈ STATE_LABOR_RATES, (0:ℚ) < p.2 := by
  decide

theorem JOB_TYPE_MULTIPLIERS_pos : ∀ p ∈ JOB_TYPE_MULTIPLIERS, (0:ℚ) < p.2 := by
  intro p hp
  fin_cases hp <;> norm_num

theorem URGENCY_MULTIPLIERS_pos : ∀ p ∈ URGENCY_MULTIPLIERS, (0:ℚ) < p.2 := by
  intro p hp
  fin_cases hp <;> norm_num

theorem round2_nonneg {q : ℚ} (h : 0 ≤ q) : 0 ≤ round2 q := by
  obtain ⟨n, hn⟩ := grid_round2 q
  have hge := round2_ge q
  rw [hn] at hge ⊢
  have hn1 : (-1:ℚ) < (n:ℚ) := by linarith
  have hn2 : (-1:ℤ) < n := by exact_mod_cast hn1
  have hn3 : (0:ℤ) ≤ n := by omega
  have hn4 : (0:ℚ) ≤ (n:ℚ) := by exact_mod_cast hn3
  linarith

/-! ## The supplier-selection function -/

theorem priceLE_trans : ∀ a b c : String × ℚ, priceLE a b → priceLE b c → priceLE a c := by
  intro a b c hab hbc
  simp only [priceLE, decide_eq_true_eq] at *
  exact le_trans hab hbc

theorem priceLE_total : ∀ a b : String × ℚ, priceLE a b || priceLE b a := by
  intro a b
  simp only [priceLE, Bool.or_eq_true, decide_eq_true_eq]
  exact le_total a.2 b.2

/-- On a non-empty quote list, `select_supplier` returns a member pair whose
price is minimal. -/
theorem select_supplier_spec (l : List (String × ℚ)) (h : l ≠ []) :
    ∃ a, a ∈ l ∧ select_supplier l = (some a.1, a.2) ∧ ∀ b ∈ l, a.2 ≤ b.2 := by
  cases hs : l.mergeSort priceLE with
  | nil =>
      have hp := List.mergeSort_perm l priceLE
      rw [hs] at hp
      exact absurd (List.Perm.nil_eq hp).symm h
  | cons a t =>
      have hp := List.mergeSort_perm l priceLE
      rw [hs] at hp
      refine ⟨a, hp.subset (List.mem_cons_self a t), ?_, ?_⟩
      · rw [select_supplier, hs]
      · intro b hb
        rcases List.mem_cons.mp (hp.symm.subset hb) with rfl | hbt
        · exact le_refl _
        · have hsorted := List.sorted_mergeSort priceLE_trans priceLE_total l
          rw [hs] at hsorted
          have hab := (List.pairwise_cons.mp hsorted).1 b hbt
          simpa [priceLE, decide_eq_true_eq] using hab

/-- The selected price is invariant under permutation of the quote list. -/
theorem select_supplier_perm (l l' : List (String × ℚ)) (hp : l.Perm l') :
    (select_supplier l).2 = (select_supplier l').2 := by
  rcases eq_or_ne l [] with rfl | h
  · have : l' = [] := (List.Perm.nil_eq hp).symm
    subst this
    rfl
  · have h' : l' ≠ [] := by
      intro he
      subst he
      exact h (List.Perm.eq_nil hp)
    obtain ⟨a, haM, haE, haMin⟩ := select_supplier_spec l h
    obtain ⟨b, hbM, hbE, hbMin⟩ := select_supplier_spec l' h'
    rw [haE, hbE]
    exact le_antisymm (haMin b (hp.symm.subset hbM)) (hbMin a (hp.subset haM))

/-- With distinct supplier names, ties are broken by insertion order: the
selected pair is preceded only by strictly more expensive quotes. -/
theorem select_supplier_first (l : List (String × ℚ)) (h : l ≠ [])
    (hnd : (l.map Prod.fst).Nodup) :
    ∃ a l₁ l₂, select_supplier l = (some a.1, a.2) ∧ l = l₁ ++ a :: l₂
      ∧ ∀ b ∈ l₁, a.2 < b.2 := by
  obtain ⟨a, haM, haE, haMin⟩ := select_supplier_spec l h
  obtain ⟨l₁, l₂, hl⟩ := List.append_of_mem haM
  refine ⟨a, l₁, l₂, haE, hl, ?_⟩
  intro b hb
  by_contra hbe
  push_neg at hbe
  have hNodup : l.Nodup := hnd.of_map _
  cases hs : l.mergeSort priceLE with
  | nil =>
      have hp := List.mergeSort_perm l priceLE
      rw [hs] at hp
      exact absurd (List.Perm.nil_eq hp).symm h
  | cons q t =>
      rw [select_supplier, hs] at haE
      have hq1 : q.1 = a.1 := Option.some.inj (Prod.mk.inj haE).1
      have hqM : q ∈ l := by
        have hp := List.mergeSort_perm l priceLE
        rw [hs] at hp
        exact hp.subset (List.mem_cons_self q t)
      have hqa : q = a := List.inj_on_of_nodup_map hnd hqM haM hq1
      subst hqa
      have hsub : List.Sublist [b, q] l := by
        rw [hl]
        obtain ⟨s, t', hbst⟩ := List.append_of_mem hb
        rw [hbst, List.append_assoc, List.cons_append]
        refine List.Sublist.trans ?_ (List.sublist_append_right s _)
        exact List.Sublist.cons₂ b
          (List.singleton_sublist.mpr (List.mem_append_right t' (List.mem_cons_self q l₂)))
      have hpair : List.Sublist [b, q] (l.mergeSort priceLE) :=
        List.sublist_mergeSort priceLE_trans priceLE_total
          (List.pairwise_pair.mpr (by simp only [priceLE, decide_eq_true_eq]; exact hbe)) hsub
      rw [hs] at hpair
      cases hpair with
      | cons _ hbq =>
          have hqt : q ∈ t := hbq.subset (by simp)
          have hmsNodup : (q :: t).Nodup := by
            have hp := List.mergeSort_perm l priceLE
            rw [hs] at hp
            exact (hp.nodup_iff).mpr hNodup
          exact (List.nodup_cons.mp hmsNodup).1 hqt
      | cons₂ _ hbq =>
          rw [hl, List.map_append] at hnd
          have hdisj := List.disjoint_of_nodup_append hnd
          exact hdisj (List.mem_map_of_mem Prod.fst hb)
            (List.mem_map_of_mem Prod.fst (List.mem_cons_self _ l₂))

theorem select_supplier_nil : select_supplier [] = (none, 0) := by
  simp [select_supplier]

/-! ## Lower bounds on the subtotal for benign inputs -/

theorem labor_cost_nonneg (j : JobData) (hv : passesValidation j) :
    0 ≤ labor_costOf j := by
  obtain ⟨h1, h2, h3⟩ := hv
  rw [labor_costOf]
  apply round2_nonneg
  have hr := pos_getD STATE_LABOR_RATES_pos (stateOf j) (show (0:ℚ) < 30 by norm_num)
  have hj := pos_getD JOB_TYPE_MULTIPLIERS_pos (job_typeOf j) (show (0:ℚ) < 1.0 by norm_num)
  have hu := pos_getD URGENCY_MULTIPLIERS_pos (urgencyOf j) (show (0:ℚ) < 1.0 by norm_num)
  have hlh : 0 < labor_hoursOf j := lt_of_lt_of_le (by norm_num) h2
  have := mul_pos (mul_pos (mul_pos hr hj) hlh) hu
  linarith

theorem material_cost_nonneg (j : JobData)
    (hm : ∀ p ∈ j.material_prices, 0 < p.2) : 0 ≤ material_costOf j := by
  rcases eq_or_ne j.material_prices [] with he | he
  · simp [material_costOf, he, select_supplier]
  · obtain ⟨a, haM, haE, _⟩ := select_supplier_spec _ he
    rw [material_costOf, haE]
    show 0 ≤ round2 a.2
    exact round2_nonneg (le_of_lt (hm a haM))

theorem logistics_cost_ge (j : JobData) (hd : 0 < distance_kmOf j) :
    50 - 1/200 ≤ logistics_costOf j := by
  rw [logistics_costOf, calculate_logistics_cost]
  have hr := round2_ge (50 + distance_kmOf j * LOGISTICS_RATE_PER_KM)
  have hL : (0:ℚ) < LOGISTICS_RATE_PER_KM := by norm_num [LOGISTICS_RATE_PER_KM]
  nlinarith

theorem subtotal_ge_two_cents (j : JobData) (hv : passesValidation j)
    (hd : 0 < distance_kmOf j) (hm : ∀ p ∈ j.material_prices, 0 < p.2) :
    2/100 ≤ subtotalOf j := by
  rw [subtotalOf]
  have h1 := labor_cost_nonneg j hv
  have h2 := material_cost_nonneg j hm
  have h3 := logistics_cost_ge j hd
  linarith

/-! ## Claims -/

/-- C1 counterexample: the input `lowSubtotalJob` passes validation, has the
strictly positive subtotal 0.01, yet its final ratio
`platform_margin / client_price` is `0`, outside `[0.20, 0.35]` — the claim
as stated is false. -/
theorem C1_counterexample :
    passesValidation lowSubtotalJob
      ∧ 0 < subtotalOf lowSubtotalJob
      ∧ ¬(0.20 ≤ platform_marginOf lowSubtotalJob / client_priceOf lowSubtotalJob
            ∧ platform_marginOf lowSubtotalJob / client_priceOf lowSubtotalJob ≤ 0.35) := by
  refine ⟨lowJob_valid, ?_, ?_⟩
  · rw [lowJob_subtotal]
    norm_num
  · rw [platform_marginOf, client_priceOf, lowJob_subtotal, clampStep_one_cent]
    norm_num

/-- C1 (amended): for every input passing validation whose subtotal is at
least 0.02 (rather than merely positive), the final ratio
`platform_margin / client_price` after the clamp step lies in
`[0.20, 0.35]`. -/
theorem C1_margin_ratio_bounds (j : JobData) (hv : passesValidation j)
    (hs : 2/100 ≤ subtotalOf j) :
    0.20 ≤ platform_marginOf j / client_priceOf j
      ∧ platform_marginOf j / client_priceOf j ≤ 0.35 := by
  obtain ⟨n, hn⟩ := subtotal_grid j
  have hn2 : (2:ℤ) ≤ n := by
    have h2 : (2:ℚ) ≤ (n:ℚ) := by
      rw [hn] at hs
      linarith
    exact_mod_cast h2
  obtain ⟨hcp, hpm, h20, h35, heq⟩ := clampStep_of_two_le n hn2
  have hampeq : actual_margin_percent ((n:ℚ)/100)
      = preClampMargin ((n:ℚ)/100) / preClampPrice ((n:ℚ)/100) := by
    rw [actual_margin_percent, if_pos (show preClampPrice ((n:ℚ)/100) > 0 from hcp)]
  rw [hampeq] at h20 h35
  rw [platform_marginOf, client_priceOf, hn, heq]
  exact ⟨h20, h35⟩

/-- C1 witness: the amended bound holds at the spec example input. -/
theorem C1_margin_ratio_bounds_witness :
    passesValidation exampleJob ∧ 2/100 ≤ subtotalOf exampleJob
      ∧ (0.20 ≤ platform_marginOf exampleJob / client_priceOf exampleJob
          ∧ platform_marginOf exampleJob / client_priceOf exampleJob ≤ 0.35) :=
  ⟨exampleJob_valid, by rw [exampleJob_subtotal]; norm_num,
    C1_margin_ratio_bounds exampleJob exampleJob_valid
      (by rw [exampleJob_subtotal]; norm_num)⟩

/-- C2 counterexample: `negativeDistanceJob` passes validation (its distance
is arbitrary, as the claim allows), yet its client price -467.5 is strictly
below its subtotal -374, and its platform margin -93.5 is negative. -/
theorem C2_counterexample :
    passesValidation negativeDistanceJob
      ∧ client_priceOf negativeDistanceJob < subtotalOf negativeDistanceJob
      ∧ platform_marginOf negativeDistanceJob < 0 := by
  refine ⟨negJob_valid, ?_, ?_⟩
  · rw [client_priceOf, negJob_clamp, negJob_subtotal]
    norm_num
  · rw [platform_marginOf, negJob_clamp]
    norm_num

/-- C2 (amended): for every input passing validation whose subtotal is
nonnegative, `client_price ≥ subtotal`, i.e. `platform_margin ≥ 0`. -/
theorem C2_price_ge_subtotal (j : JobData) (hv : passesValidation j)
    (hs : 0 ≤ subtotalOf j) :
    subtotalOf j ≤ client_priceOf j ∧ 0 ≤ platform_marginOf j := by
  obtain ⟨n, hn⟩ := subtotal_grid j
  have hn0 : (0:ℤ) ≤ n := by
    have h0 : (0:ℚ) ≤ (n:ℚ) := by
      rw [hn] at hs
      linarith
    exact_mod_cast h0
  rw [client_priceOf, platform_marginOf, hn]
  by_cases hn2 : (2:ℤ) ≤ n
  · obtain ⟨hcp, hpm, h20, h35, heq⟩ := clampStep_of_two_le n hn2
    obtain ⟨hlo, hhi⟩ := preClampPrice_bounds n hn2
    have hs' : (0:ℚ) ≤ (n:ℚ)/100 := by
      rw [hn] at hs
      exact hs
    rw [heq]
    constructor
    · show (n:ℚ)/100 ≤ preClampPrice ((n:ℚ)/100)
      have hself : (n:ℚ)/100 ≤ (n:ℚ)/100 / 0.8 := by
        rw [le_div_iff₀ (by norm_num : (0:ℚ) < 0.8)]
        linarith
      linarith
    · show 0 ≤ preClampMargin ((n:ℚ)/100)
      rw [hpm]
      have hself : (n:ℚ)/100 ≤ (n:ℚ)/100 / 0.8 := by
        rw [le_div_iff₀ (by norm_num : (0:ℚ) < 0.8)]
        linarith
      linarith
  · have : n = 0 ∨ n = 1 := by omega
    rcases this with h | h <;> subst h
    · rw [show ((0:ℤ):ℚ)/100 = 0 by norm_num, clampStep_zero]
      norm_num
    · rw [show ((1:ℤ):ℚ)/100 = 1/100 by norm_num, clampStep_one_cent]
      norm_num

/-- C2 witness: the amended inequality holds at the spec example input. -/
theorem C2_price_ge_subtotal_witness :
    passesValidation exampleJob ∧ 0 ≤ subtotalOf exampleJob
      ∧ (subtotalOf exampleJob ≤ client_priceOf exampleJob
          ∧ 0 ≤ platform_marginOf exampleJob) :=
  ⟨exampleJob_valid, by rw [exampleJob_subtotal]; norm_num,
    C2_price_ge_subtotal exampleJob exampleJob_valid
      (by rw [exampleJob_subtotal]; norm_num)⟩

/-- C9: whenever the 27%-derived client price is not strictly positive, the
guard takes the margin percent to be `0` instead of dividing, and that `0`
triggers the low-margin branch, which recomputes
`client_price = round2(subtotal / 0.80)`. -/
theorem C9_division_guard (j : JobData) (hv : passesValidation j)
    (h : preClampPrice (subtotalOf j) ≤ 0) :
    actual_margin_percent (subtotalOf j) = 0
      ∧ client_priceOf j = round2 (subtotalOf j / 0.80) := by
  have hamp : actual_margin_percent (subtotalOf j) = 0 := by
    rw [actual_margin_percent, if_neg (not_lt.mpr h)]
  refine ⟨hamp, ?_⟩
  rw [client_priceOf, clampStep, hamp, if_pos (by norm_num)]

/-- C9 witness: at `negativeDistanceJob` the pre-clamp price is -512.33 ≤ 0,
so the guard yields margin percent 0 and the 0.80 recomputation. -/
theorem C9_division_guard_witness :
    actual_margin_percent (subtotalOf negativeDistanceJob) = 0
      ∧ client_priceOf negativeDistanceJob
          = round2 (subtotalOf negativeDistanceJob / 0.80) :=
  C9_division_guard negativeDistanceJob negJob_valid
    (by rw [negJob_preclamp]; norm_num)

theorem exampleJob_preclamp : preClampPrice (subtotalOf exampleJob) = 20027/100 := by
  rw [exampleJob_subtotal, preClampPrice,
    round2_eq_of_lt 20027 _ (by norm_num) (by norm_num)]
  norm_num

/-- C3: on the spec example input every intermediate of the pipeline takes
exactly the claimed value, the 27%-derived price is kept (no clamp), and the
response carries the claimed whole-unit rounded fields. -/
theorem C3_example_evaluation :
    labor_costOf exampleJob = 91.20
      ∧ logistics_costOf exampleJob = 55.00
      ∧ material_costOf exampleJob = 0
      ∧ subtotalOf exampleJob = 146.20
      ∧ client_priceOf exampleJob = 200.27
      ∧ client_priceOf exampleJob = preClampPrice (subtotalOf exampleJob)
      ∧ technician_payoutOf exampleJob = 62.02
      ∧ pricing_confidenceOf exampleJob = "medium"
      ∧ approval_requiredOf exampleJob = false
      ∧ calculate_pricing exampleJob = Except.ok
          { client_price := 200
            technician_payout := 62
            material_source := "Standard Materials"
            material_cost := 0
            labor_cost := 91
            logistics_cost := 55
            platform_margin := 54
            pricing_confidence := "medium"
            approval_required := false } := by
  refine ⟨?_, ?_, exampleJob_material_cost, ?_, ?_, ?_, ?_,
    exampleJob_confidence, exampleJob_approval, exampleJob_response⟩
  · rw [exampleJob_labor_cost]
    norm_num
  · rw [exampleJob_logistics]
    norm_num
  · rw [exampleJob_subtotal]
    norm_num
  · rw [exampleJob_client_price]
    norm_num
  · rw [exampleJob_client_price, exampleJob_preclamp]
  · rw [exampleJob_payout]
    norm_num

/-- C4: `calculate_pricing` errors exactly on an unknown (upper-cased) region
code or labor hours outside `[0.5, 100]`, with the two exact messages, the
region check first; the boundary hour values 0.5 and 100 are accepted while
0.49 and 100.01 are rejected; an unrecognized urgency is coerced to
`"normal"` and never affects the error status. -/
theorem C4_validation :
    (∀ j : JobData, (∃ e, calculate_pricing j = Except.error e)
        ↔ (STATE_LABOR_RATES.lookup (stateOf j) = none
            ∨ labor_hoursOf j < 0.5 ∨ labor_hoursOf j > 100))
    ∧ (∀ j : JobData, STATE_LABOR_RATES.lookup (stateOf j) = none
        → calculate_pricing j = Except.error "Invalid state code")
    ∧ (∀ j : JobData, STATE_LABOR_RATES.lookup (stateOf j) ≠ none
        → labor_hoursOf j < 0.5 ∨ labor_hoursOf j > 100
        → calculate_pricing j = Except.error "Labor hours must be between 0.5 and 100")
    ∧ (∀ j : JobData, STATE_LABOR_RATES.lookup (stateOf j) ≠ none
        → labor_hoursOf j = 0.5 ∨ labor_hoursOf j = 100
        → calculate_pricing j = Except.ok (responseOf j))
    ∧ (∀ j : JobData, STATE_LABOR_RATES.lookup (stateOf j) ≠ none
        → labor_hoursOf j = 0.49 ∨ labor_hoursOf j = 100.01
        → calculate_pricing j = Except.error "Labor hours must be between 0.5 and 100")
    ∧ (∀ j : JobData, URGENCY_MULTIPLIERS.lookup (urgencyRaw j) = none
        → urgencyOf j = "normal")
    ∧ (∀ (j : JobData) (u : Option String),
        (∃ e, calculate_pricing { j with urgency := u } = Except.error e)
          ↔ (∃ e, calculate_pricing j = Except.error e)) := by
  have key : ∀ j : JobData, STATE_LABOR_RATES.lookup (stateOf j) ≠ none
      → labor_hoursOf j < 0.5 ∨ labor_hoursOf j > 100
      → calculate_pricing j = Except.error "Labor hours must be between 0.5 and 100" := by
    intro j h1 h23
    rw [calculate_pricing, if_neg (by simp [Option.isNone_iff_eq_none, h1]),
      if_pos h23]
  refine ⟨pricing_error_iff, ?_, key, ?_, ?_, ?_, ?_⟩
  · intro j h
    rw [calculate_pricing, if_pos (by simp [Option.isNone_iff_eq_none, h])]
  · intro j h1 hb
    apply pricing_ok_of_valid
    refine ⟨Option.isSome_iff_ne_none.mpr h1, ?_, ?_⟩
    · rcases hb with h | h <;> rw [h] <;> norm_num
    · rcases hb with h | h <;> rw [h] <;> norm_num
  · intro j h1 hb
    apply key j h1
    rcases hb with h | h
    · exact Or.inl (by rw [h]; norm_num)
    · exact Or.inr (by rw [h]; norm_num)
  · intro j h
    rw [urgencyOf, if_pos (by simp [Option.isNone_iff_eq_none, h])]
  · intro j u
    rw [pricing_error_iff, pricing_error_iff]
    rfl

/-- C4 witness: a concrete unknown region is rejected with the region
message, hours 0.49 are rejected with the hours message, hours 0.5 are
accepted, and an unrecognized urgency is coerced to `"normal"`. -/
theorem C4_validation_witness :
    calculate_pricing invalidStateJob = Except.error "Invalid state code"
      ∧ calculate_pricing ({ labor_hours := some 0.49 } : JobData)
          = Except.error "Labor hours must be between 0.5 and 100"
      ∧ calculate_pricing ({ labor_hours := some 0.5 } : JobData)
          = Except.ok (responseOf ({ labor_hours := some 0.5 } : JobData))
      ∧ urgencyOf unknownTypeJob = "normal" :=
  ⟨C4_validation.2.1 invalidStateJob (by decide),
   C4_validation.2.2.2.2.1 _ (by decide) (Or.inl (by simp [labor_hoursOf])),
   C4_validation.2.2.2.1 _ (by decide) (Or.inl (by simp [labor_hoursOf])),
   C4_validation.2.2.2.2.2.1 unknownTypeJob (by decide)⟩

/-- C5: on a non-empty quote list `select_supplier` returns a member pair of
minimal price; with distinct supplier names the winner is the first-seen
minimum (everything before it is strictly dearer); the chosen price is
invariant under permutation of the entries; the empty mapping yields the
sentinel `(none, 0)` which the caller replaces by `"Standard Materials"`
with zero cost. -/
theorem C5_supplier_selection :
    (∀ l : List (String × ℚ), l ≠ [] →
        ∃ a, a ∈ l ∧ select_supplier l = (some a.1, a.2) ∧ ∀ b ∈ l, a.2 ≤ b.2)
    ∧ (∀ l : List (String × ℚ), l ≠ [] → (l.map Prod.fst).Nodup →
        ∃ a l₁ l₂, select_supplier l = (some a.1, a.2) ∧ l = l₁ ++ a :: l₂
          ∧ ∀ b ∈ l₁, a.2 < b.2)
    ∧ (∀ l l' : List (String × ℚ), l.Perm l' →
        (select_supplier l).2 = (select_supplier l').2)
    ∧ select_supplier [] = (none, 0)
    ∧ (∀ j : JobData, j.material_prices = [] →
        material_sourceOf j = "Standard Materials" ∧ material_costOf j = 0) := by
  refine ⟨select_supplier_spec, select_supplier_first, select_supplier_perm,
    select_supplier_nil, ?_⟩
  intro j h
  constructor
  · rw [material_sourceOf, h, select_supplier_nil]
  · rw [material_costOf, h, select_supplier_nil]

/-- C5 witness: on three concrete quotes with a tie at the minimum the
selection facts hold, and the price survives a concrete permutation. -/
theorem C5_supplier_selection_witness :
    (∃ a, a ∈ [("SupplierB",(80:ℚ)), ("SupplierA",80), ("SupplierC",95)]
        ∧ select_supplier [("SupplierB",(80:ℚ)), ("SupplierA",80), ("SupplierC",95)]
            = (some a.1, a.2)
        ∧ ∀ b ∈ [("SupplierB",(80:ℚ)), ("SupplierA",80), ("SupplierC",95)], a.2 ≤ b.2)
      ∧ (∃ a l₁ l₂,
          select_supplier [("SupplierB",(80:ℚ)), ("SupplierA",80), ("SupplierC",95)]
              = (some a.1, a.2)
            ∧ [("SupplierB",(80:ℚ)), ("SupplierA",80), ("SupplierC",95)] = l₁ ++ a :: l₂
            ∧ ∀ b ∈ l₁, a.2 < b.2)
      ∧ (select_supplier [("SupplierB",(80:ℚ)), ("SupplierA",80), ("SupplierC",95)]).2
          = (select_supplier [("SupplierC",(95:ℚ)), ("SupplierB",80), ("SupplierA",80)]).2 :=
  ⟨C5_supplier_selection.1 _ (by simp),
   C5_supplier_selection.2.1 _ (by simp) (by decide),
   C5_supplier_selection.2.2.1 _ _ (by decide)⟩

/-- C6: the technician payout is exactly `round2(labor_cost * 0.68)` before
display rounding, the response carries its whole-unit rounding, and it
depends only on the state, job type, urgency and labor hours fields. -/
theorem C6_payout_formula :
    (∀ j : JobData, technician_payoutOf j = round2 (labor_costOf j * 0.68))
    ∧ (∀ (j : JobData) (r : Response), calculate_pricing j = Except.ok r
        → r.technician_payout = round0 (round2 (labor_costOf j * 0.68)))
    ∧ (∀ j₁ j₂ : JobData, j₁.state = j₂.state → j₁.job_type = j₂.job_type
        → j₁.urgency = j₂.urgency → j₁.labor_hours = j₂.labor_hours
        → technician_payoutOf j₁ = technician_payoutOf j₂) := by
  refine ⟨fun j => rfl, ?_, ?_⟩
  · intro j r h
    rw [pricing_ok_inv j r h]
    rfl
  · intro j₁ j₂ h1 h2 h3 h4
    cases j₁
    cases j₂
    simp only at h1 h2 h3 h4
    subst h1 h2 h3 h4
    simp only [technician_payoutOf, labor_costOf, stateOf, job_typeOf,
      urgencyOf, urgencyRaw, labor_hoursOf]

/-- C6 witness: changing only distance, materials and description leaves the
payout unchanged, and the example response field is the rounded formula. -/
theorem C6_payout_formula_witness :
    technician_payoutOf variedJob = technician_payoutOf exampleJob
      ∧ ({ client_price := 200
           technician_payout := 62
           material_source := "Standard Materials"
           material_cost := 0
           labor_cost := 91
           logistics_cost := 55
           platform_margin := 54
           pricing_confidence := "medium"
           approval_required := false } : Response).technician_payout
          = round0 (round2 (labor_costOf exampleJob * 0.68)) :=
  ⟨C6_payout_formula.2.2 variedJob exampleJob rfl rfl rfl rfl,
   C6_payout_formula.2.1 exampleJob _ exampleJob_response⟩

/-- C7: an unknown (lower-cased) job type falls back to the neutral
multiplier 1.0 without error; an unknown urgency is coerced to `"normal"`
with multiplier 1.0 without error; neither field can change the error
status. -/
theorem C7_unknown_fallbacks :
    (∀ j : JobData, JOB_TYPE_MULTIPLIERS.lookup (job_typeOf j) = none
        → (JOB_TYPE_MULTIPLIERS.lookup (job_typeOf j)).getD 1.0 = 1.0
          ∧ labor_costOf j = round2 ((STATE_LABOR_RATES.lookup (stateOf j)).getD 30
              * labor_hoursOf j
              * (URGENCY_MULTIPLIERS.lookup (urgencyOf j)).getD 1.0))
    ∧ (∀ j : JobData, URGENCY_MULTIPLIERS.lookup (urgencyRaw j) = none
        → urgencyOf j = "normal"
          ∧ (URGENCY_MULTIPLIERS.lookup (urgencyOf j)).getD 1.0 = 1.0)
    ∧ (∀ (j : JobData) (t u : Option String),
        (∃ e, calculate_pricing { j with job_type := t, urgency := u }
            = Except.error e)
          ↔ (∃ e, calculate_pricing j = Except.error e)) := by
  refine ⟨?_, ?_, ?_⟩
  · intro j h
    refine ⟨by rw [h, Option.getD_none], ?_⟩
    rw [labor_costOf, h, Option.getD_none]
    congr 1
    norm_num
  · intro j h
    have h1 : urgencyOf j = "normal" := by
      rw [urgencyOf, if_pos (by simp [Option.isNone_iff_eq_none, h])]
    refine ⟨h1, ?_⟩
    rw [h1]
    simp [URGENCY_MULTIPLIERS, List.lookup]
  · intro j t u
    rw [pricing_error_iff, pricing_error_iff]
    rfl

/-- C7 witness: the fallbacks hold at a concrete input whose job type and
urgency are both unrecognized. -/
theorem C7_unknown_fallbacks_witness :
    ((JOB_TYPE_MULTIPLIERS.lookup (job_typeOf unknownTypeJob)).getD 1.0 = 1.0
        ∧ labor_costOf unknownTypeJob
            = round2 ((STATE_LABOR_RATES.lookup (stateOf unknownTypeJob)).getD 30
                * labor_hoursOf unknownTypeJob
                * (URGENCY_MULTIPLIERS.lookup (urgencyOf unknownTypeJob)).getD 1.0))
      ∧ (urgencyOf unknownTypeJob = "normal"
          ∧ (URGENCY_MULTIPLIERS.lookup (urgencyOf unknownTypeJob)).getD 1.0 = 1.0)
      ∧ ((∃ e, calculate_pricing
            { emptyJob with job_type := some "exorcism", urgency := some "whenever" }
              = Except.error e)
          ↔ (∃ e, calculate_pricing emptyJob = Except.error e)) :=
  ⟨C7_unknown_fallbacks.1 unknownTypeJob (by decide),
   C7_unknown_fallbacks.2.1 unknownTypeJob (by decide),
   C7_unknown_fallbacks.2.2 emptyJob (some "exorcism") (some "whenever")⟩

/-- C8: for validated inputs with positive distance and positive material
prices the margin-percent guard lies inside `[0.20, 0.35]`, so neither
clamp branch fires: the clamp code is unreachable there. -/
theorem C8_clamp_unreachable (j : JobData) (hv : passesValidation j)
    (hd : 0 < distance_kmOf j) (hm : ∀ p ∈ j.material_prices, 0 < p.2) :
    ¬(actual_margin_percent (subtotalOf j) < 0.20)
      ∧ ¬(actual_margin_percent (subtotalOf j) > 0.35)
      ∧ clampStep (subtotalOf j)
          = (preClampPrice (subtotalOf j), preClampMargin (subtotalOf j)) := by
  have hs := subtotal_ge_two_cents j hv hd hm
  obtain ⟨n, hn⟩ := subtotal_grid j
  have hn2 : (2:ℤ) ≤ n := by
    have h2 : (2:ℚ) ≤ (n:ℚ) := by
      rw [hn] at hs
      linarith
    exact_mod_cast h2
  obtain ⟨hcp, hpm, h20, h35, heq⟩ := clampStep_of_two_le n hn2
  rw [hn]
  exact ⟨not_lt.mpr h20, not_lt.mpr h35, heq⟩

/-- C8 witness: the no-clamp conclusion holds at a concrete validated input
with positive distance and positive supplier quotes. -/
theorem C8_clamp_unreachable_witness :
    ¬(actual_margin_percent (subtotalOf suppliersJob) < 0.20)
      ∧ ¬(actual_margin_percent (subtotalOf suppliersJob) > 0.35)
      ∧ clampStep (subtotalOf suppliersJob)
          = (preClampPrice (subtotalOf suppliersJob),
              preClampMargin (subtotalOf suppliersJob)) :=
  C8_clamp_unreachable suppliersJob
    ⟨by decide, by norm_num [labor_hoursOf, suppliersJob],
      by norm_num [labor_hoursOf, suppliersJob]⟩
    (by norm_num [distance_kmOf, suppliersJob])
    (by
      intro p hp
      simp only [suppliersJob] at hp
      fin_cases hp <;> norm_num)

/-- C10: an absent state key defaults to region `"CA"` (rate 38) and can
never produce the region error; region matching is case-insensitive because
it happens after upper-casing. -/
theorem C10_state_handling :
    (∀ j : JobData, j.state = none →
        stateOf j = "CA"
          ∧ STATE_LABOR_RATES.lookup (stateOf j) = some 38
          ∧ ∀ e, calculate_pricing j = Except.error e → e ≠ "Invalid state code")
    ∧ (∀ (j : JobData) (s₁ s₂ : String), strUpper s₁ = strUpper s₂ →
        calculate_pricing { j with state := some s₁ }
          = calculate_pricing { j with state := some s₂ }) := by
  constructor
  · intro j h
    have hst : stateOf j = "CA" := by
      rw [stateOf, h]
      decide
    have hlk : STATE_LABOR_RATES.lookup (stateOf j) = some 38 := by
      rw [hst]
      simp [STATE_LABOR_RATES, List.lookup]
    refine ⟨hst, hlk, ?_⟩
    intro e he
    rw [calculate_pricing, if_neg (by simp [Option.isNone_iff_eq_none, hlk])] at he
    split_ifs at he
    rw [← Except.error.inj he]
    decide
  · intro j s₁ s₂ h
    apply calculate_pricing_congr <;> try rfl
    show strUpper ((some s₁).getD "CA") = strUpper ((some s₂).getD "CA")
    simpa using h

/-- C10 witness: the default applies to the all-defaults input, and a
lower-cased `"ca"` is priced identically to `"CA"`. -/
theorem C10_state_handling_witness :
    (stateOf emptyJob = "CA"
        ∧ STATE_LABOR_RATES.lookup (stateOf emptyJob) = some 38
        ∧ ∀ e, calculate_pricing emptyJob = Except.error e
            → e ≠ "Invalid state code")
      ∧ calculate_pricing { exampleJob with state := some "ca" }
          = calculate_pricing { exampleJob with state := some "CA" } :=
  ⟨C10_state_handling.1 emptyJob rfl,
   C10_state_handling.2 exampleJob "ca" "CA" (by decide)⟩

end Pricing

